import Mathlib

/-!
Verification development for the Wire DSL VS Code extension core:
the preview update coordinator (webviewPanelProvider.ts) and the
export orchestrator (ExportManager).  TypeScript sources are embedded
shallowly: machine-level effects (file writes, the external
@wire-dsl/core engine) are represented by explicit data, and the
control flow of each function is translated statement by statement.
-/

set_option maxHeartbeats 1000000

/-- Preview theme, the two values used by the extension. -/
inductive Theme
| light
| dark
deriving DecidableEq, Repr

/-- A viewport: the intrinsic size of one screen, in device units. -/
structure Viewport where
width : Nat
height : Nat
deriving DecidableEq, Repr

/-- A screen (View) of the IR as read by the extension: a name and an
optional viewport, mirroring how ExportManager reads the engine output. -/
structure Screen where
name : String
viewport : Option Viewport
deriving DecidableEq, Repr

/-- The project part of the IR: the ordered list of screens, the only
field the extension reads. -/
structure Project where
screens : List Screen
deriving DecidableEq, Repr

/-- The IR (ParsedDocument) as consumed by the extension core. -/
structure IR where
project : Project
deriving DecidableEq, Repr

/-- The engine AST, opaque to the extension; a tag stands for its value. -/
structure AST where
tag : Nat
deriving DecidableEq, Repr

/-- The engine layout, opaque to the extension; a tag stands for its value. -/
structure Layout where
tag : Nat
deriving DecidableEq, Repr

/-! ### JavaScript string and path primitives used by the sources -/

/-- Whitespace as matched by the JavaScript regex class backslash-s,
restricted to the ASCII range. -/
def jsWhitespace (c : Char) : Bool :=
c = ' ' || c = '\t' || c = '\n' || c = '\r' || c = Char.ofNat 11 || c = Char.ofNat 12

/-- Helper for collapseWS: the flag records whether the previous
character was whitespace, so that a run yields a single hyphen. -/
def collapseWSAux : Bool → List Char → List Char
| _, [] => []
| inWS, c :: rest =>
  if jsWhitespace c then
    if inWS then collapseWSAux true rest else '-' :: collapseWSAux true rest
  else c :: collapseWSAux false rest

/-- Replace each maximal run of whitespace by a single hyphen, as the
regex replace of one-or-more-whitespace with a hyphen does. -/
def collapseWS (l : List Char) : List Char := collapseWSAux false l

/-- Characters kept by the sanitizer: lowercase letters, digits, hyphen. -/
def keepChar (c : Char) : Bool :=
('a' ≤ c && c ≤ 'z') || ('0' ≤ c && c ≤ '9') || c = '-'

/-- ExportManager.sanitizeScreenName: lowercase the name, replace each
whitespace run by a hyphen, then delete every character outside
lowercase letters, digits and hyphen. -/
def sanitizeScreenName (name : String) : String :=
⟨(collapseWS (name.toList.map Char.toLower)).filter keepChar⟩

/-- Node path.dirname for the forward-slash paths the extension builds:
everything before the last slash, a dot when there is no slash. -/
def dirname (p : String) : String :=
match p.toList.reverse.dropWhile (fun c => c ≠ '/') with
| [] => "."
| ['/'] => "/"
| '/' :: rest => ⟨rest.reverse⟩
| _ => "."

/-- The last path component of a path string. -/
def lastComponent (p : String) : String :=
⟨(p.toList.reverse.takeWhile (fun c => c ≠ '/')).reverse⟩

/-- String suffix test by character lists (kernel-reducible form of
the endsWith test used in the sources). -/
def strEndsWith (p suffix : String) : Bool :=
suffix.toList.isSuffixOf p.toList

/-- Node path.basename with an extension argument: the last component,
with the extension removed when it is a proper suffix. -/
def basenameExt (p ext : String) : String :=
let b := lastComponent p
if strEndsWith b ext && ext.length < b.length then ⟨b.toList.take (b.length - ext.length)⟩
else b

/-- Node path.join for the two-argument uses in the sources: a dot
directory disappears, otherwise the parts are joined with a slash. -/
def joinPath (dir file : String) : String :=
if dir = "." then file
else if dir = "" then file
else if strEndsWith dir "/" then dir ++ file
else dir ++ "/" ++ file

/-! ### The export orchestrator (ExportManager) -/

/-- The value the external SVGRenderer is given for one screen: the
renderer itself is outside the core, so its output is represented by
the record of inputs the orchestrator hands it. -/
structure RenderedSVG where
ir : IR
layout : Layout
width : Nat
height : Nat
theme : Theme
includeLabels : Bool
screenName : String
deriving DecidableEq, Repr

/-- One page handed to the multipage PDF exporter: a rendered SVG with
its declared size and screen name. -/
structure PDFPage where
svg : RenderedSVG
width : Nat
height : Nat
name : String
deriving DecidableEq, Repr

/-- A file write performed by the export orchestrator. -/
inductive WriteOp
| svgFile (path : String) (svg : RenderedSVG)
| pngFile (path : String) (svg : RenderedSVG) (width height : Nat)
| pdfFile (path : String) (pages : List PDFPage)
deriving DecidableEq, Repr

/-- The destination path of a write. -/
def WriteOp.path : WriteOp → String
| .svgFile p _ => p
| .pngFile p _ _ _ => p
| .pdfFile p _ => p

/-- The default viewport used when the first screen declares none. -/
def defaultViewport : Viewport := ⟨1280, 720⟩

/-- The call new SVGRenderer(ir, layout, options) for one screen. -/
def renderScreen (ir : IR) (layout : Layout) (theme : Theme) (vp : Viewport)
    (s : Screen) : RenderedSVG :=
⟨ir, layout, vp.width, vp.height, theme, true, s.name⟩

namespace ExportManager

/-- The base viewport: the viewport of the first screen when present,
else the 1280 by 720 default, as the three export methods compute it. -/
def baseViewportOf (screens : List Screen) : Viewport :=
((screens.head?.map Screen.viewport).join).getD defaultViewport

/-- Body of ExportManager.exportSVG: one write to the destination path
for a single screen, one write per screen with sanitized suffixed
names in the destination directory for several screens. -/
def exportSVGBody (ir : IR) (layout : Layout) (theme : Theme) (filePath : String) :
    Except String (List WriteOp) :=
let screens := ir.project.screens
if screens.isEmpty then .error "No screens found in project"
else
  let baseViewport := baseViewportOf screens
  match screens with
  | [] => .error "No screens found in project"
  | [screen] =>
    let vp := screen.viewport.getD baseViewport
    .ok [.svgFile filePath (renderScreen ir layout theme vp screen)]
  | _ :: _ :: _ =>
    let dirPath := dirname filePath
    let baseName := basenameExt filePath ".svg"
    .ok (screens.map (fun screen =>
      let vp := screen.viewport.getD baseViewport
      .svgFile (joinPath dirPath (baseName ++ "-" ++ sanitizeScreenName screen.name ++ ".svg"))
        (renderScreen ir layout theme vp screen)))

/-- ExportManager.exportSVG with its catch clause wrapping error text. -/
def exportSVG (ir : IR) (layout : Layout) (theme : Theme) (filePath : String) :
    Except String (List WriteOp) :=
match exportSVGBody ir layout theme filePath with
| .error e => .error ("SVG export failed: " ++ e)
| .ok a => .ok a

/-- Body of ExportManager.exportPDF: render every screen in order, give
each page the viewport size of its screen (base viewport when absent),
and write one multipage file to the destination path. -/
def exportPDFBody (ir : IR) (layout : Layout) (theme : Theme) (filePath : String) :
    Except String (List WriteOp) :=
let screens := ir.project.screens
if screens.isEmpty then .error "No screens found in project"
else
  let baseViewport := baseViewportOf screens
  let svgs := screens.map (fun screen =>
    let vp := screen.viewport.getD baseViewport
    PDFPage.mk (renderScreen ir layout theme vp screen) vp.width vp.height screen.name)
  .ok [.pdfFile filePath svgs]

/-- ExportManager.exportPDF with its catch clause wrapping error text. -/
def exportPDF (ir : IR) (layout : Layout) (theme : Theme) (filePath : String) :
    Except String (List WriteOp) :=
match exportPDFBody ir layout theme filePath with
| .error e => .error ("PDF export failed: " ++ e)
| .ok a => .ok a

/-- Body of ExportManager.exportPNG: same fan-out as exportSVG, with
the png extension and the size passed to the core PNG exporter. -/
def exportPNGBody (ir : IR) (layout : Layout) (theme : Theme) (filePath : String) :
    Except String (List WriteOp) :=
let screens := ir.project.screens
if screens.isEmpty then .error "No screens found in project"
else
  let baseViewport := baseViewportOf screens
  match screens with
  | [] => .error "No screens found in project"
  | [screen] =>
    let vp := screen.viewport.getD baseViewport
    .ok [.pngFile filePath (renderScreen ir layout theme vp screen) vp.width vp.height]
  | _ :: _ :: _ =>
    let dirPath := dirname filePath
    let baseName := basenameExt filePath ".png"
    .ok (screens.map (fun screen =>
      let vp := screen.viewport.getD baseViewport
      .pngFile (joinPath dirPath (baseName ++ "-" ++ sanitizeScreenName screen.name ++ ".png"))
        (renderScreen ir layout theme vp screen) vp.width vp.height))

/-- ExportManager.exportPNG with its catch clause wrapping error text. -/
def exportPNG (ir : IR) (layout : Layout) (theme : Theme) (filePath : String) :
    Except String (List WriteOp) :=
match exportPNGBody ir layout theme filePath with
| .error e => .error ("PNG export failed: " ++ e)
| .ok a => .ok a

end ExportManager

/-! ### SVG dimension injection (updatePreview) -/

/-- Split a character list at its first closing angle bracket, as the
lazy regex group of non-bracket characters does; none when absent. -/
def splitAtGt : List Char → Option (List Char × List Char)
| [] => none
| c :: rest =>
  if c = '>' then some ([], rest)
  else (splitAtGt rest).map (fun p => (c :: p.1, p.2))

/-- First-match replacement of the regex that matches an opening svg
tag: at the first occurrence of the four tag characters followed
somewhere by a closing bracket, insert inj before that bracket. -/
def replaceSvgTag (inj : List Char) : List Char → List Char
| [] => []
| c :: rest =>
  if (c :: rest).take 4 = ['<', 's', 'v', 'g'] then
    match splitAtGt ((c :: rest).drop 4) with
    | some (attrs, after) => ['<', 's', 'v', 'g'] ++ attrs ++ inj ++ '>' :: after
    | none => c :: rest
  else c :: replaceSvgTag inj rest

/-- Whether the svg-tag regex matches somewhere in the list. -/
def hasSvgTag : List Char → Bool
| [] => false
| c :: rest =>
  if (c :: rest).take 4 = ['<', 's', 'v', 'g'] then ((c :: rest).drop 4 |> splitAtGt).isSome
  else hasSvgTag rest

/-- The attribute text injected by updatePreview when the rendered SVG
lacks an explicit width or height. -/
def dimInj : List Char := (" width=\"1300\" height=\"700\"").toList

/-- The guard plus replacement in updatePreview: when the SVG string
does not contain both a width and a height attribute substring, the
requested 1300 by 700 dimensions are spliced into the opening tag. -/
def ensureDims (svg : String) : String :=
if ("width=".toList <:+: svg.toList) ∧ ("height=".toList <:+: svg.toList) then svg
else ⟨replaceSvgTag dimInj svg.toList⟩

/-! ### The preview update coordinator (WirePreviewPanel) -/

/-- Options handed to the engine render call by updatePreview. -/
structure RenderOpts where
width : Nat
height : Nat
theme : Theme
includeLabels : Bool
screenName : String
deriving DecidableEq, Repr

/-- The external engine consumed by the preview panel: the four core
operations, each allowed to fail with a message. -/
structure Engine where
parseWireDSL : String → Except String AST
generateIR : AST → Except String IR
calculateLayout : IR → Except String Layout
renderToSVG : IR → Layout → RenderOpts → Except String String

/-- The per-panel state fields of WirePreviewPanel that the preview
and export paths read and write. -/
structure Session where
lastContent : String
currentTheme : Theme
availableScreens : List String
selectedScreen : String
lastIR : Option IR
lastLayout : Option Layout
currentFilePath : String
deriving DecidableEq, Repr

/-- What the webview surface shows after a pass: rendered HTML with
the SVG, screen list and selection, or an error message. -/
inductive Surface
| html (svg : String) (screens : List String) (selected : String)
| error (msg : String)
deriving DecidableEq, Repr

/-- Instrumentation: how many times each engine operation ran. -/
structure CallCounts where
parseCalls : Nat
irCalls : Nat
layoutCalls : Nat
renderCalls : Nat
deriving DecidableEq, Repr

/-- The screen-name list extracted from the IR by updatePreview, with
the Unknown placeholder for an empty name. -/
def screenNamesOf (ir : IR) : List String :=
ir.project.screens.map (fun s => if s.name = "" then "Unknown" else s.name)

/-- The first statements of updatePreview: store the content for later
theme changes, and the active editor path when a wire editor is
active. -/
def sessAfterStore (activeFile : Option String) (sess : Session) (content : String) : Session :=
let sess := { sess with lastContent := content }
match activeFile with
| some p => { sess with currentFilePath := p }
| none => sess

/-- The statements of updatePreview between a successful generateIR
and the calculateLayout call: store the IR, recompute the available
screen list, and initialize the selected screen only when it is still
empty. -/
def sessAfterIR (activeFile : Option String) (sess : Session) (content : String)
    (ir : IR) : Session :=
let s1 := sessAfterStore activeFile sess content
let s2 := { s1 with lastIR := some ir, availableScreens := screenNamesOf ir }
if s2.selectedScreen = "" ∧ ¬ (screenNamesOf ir).isEmpty then
  { s2 with selectedScreen := (screenNamesOf ir).headD "" }
else s2

/-- WirePreviewPanel.updatePreview, translated statement by statement:
store the content and active file path, parse, build the IR (storing
it in lastIR at once), recompute the screen list, initialize the
selected screen only when it is empty, compute the layout (storing it
in lastLayout), render with the current theme and selection, inject
dimensions when missing, and surface either the HTML or the first
failure message. -/
def updatePreview (eng : Engine) (activeFile : Option String) (sess : Session)
    (content : String) : Session × Surface × CallCounts :=
match eng.parseWireDSL content with
| .error e => (sessAfterStore activeFile sess content, .error e, ⟨1, 0, 0, 0⟩)
| .ok ast =>
  match eng.generateIR ast with
  | .error e => (sessAfterStore activeFile sess content, .error e, ⟨1, 1, 0, 0⟩)
  | .ok ir =>
    let sess2 := sessAfterIR activeFile sess content ir
    match eng.calculateLayout ir with
    | .error e => (sess2, .error e, ⟨1, 1, 1, 0⟩)
    | .ok layout =>
      let sess3 := { sess2 with lastLayout := some layout }
      match eng.renderToSVG ir layout ⟨1300, 700, sess3.currentTheme, true, sess3.selectedScreen⟩ with
      | .error e => (sess3, .error e, ⟨1, 1, 1, 1⟩)
      | .ok svg =>
        (sess3, .html (ensureDims svg) (screenNamesOf ir) sess3.selectedScreen, ⟨1, 1, 1, 1⟩)

/-- The setTheme branch of the webview message handler: store the new
theme, then rerun updatePreview on the stored content when nonempty
(no debounce is involved). -/
def handleSetTheme (eng : Engine) (activeFile : Option String) (sess : Session)
    (theme : Theme) : Session × Option (Surface × CallCounts) :=
let sess := { sess with currentTheme := theme }
if sess.lastContent ≠ "" then
  let r := updatePreview eng activeFile sess sess.lastContent
  (r.1, some r.2)
else (sess, none)

/-- The selectScreen branch of the webview message handler: store the
selected screen, then rerun updatePreview on the stored content when
nonempty (no debounce is involved). -/
def handleSelectScreen (eng : Engine) (activeFile : Option String) (sess : Session)
    (screen : String) : Session × Option (Surface × CallCounts) :=
let sess := { sess with selectedScreen := screen }
if sess.lastContent ≠ "" then
  let r := updatePreview eng activeFile sess sess.lastContent
  (r.1, some r.2)
else (sess, none)

/-! ### The debounce timer (updatePreviewDebounced) -/

/-- The single pending debounce timer of one panel: its fire time and
the content the scheduled callback closed over. -/
structure DebounceState where
pending : Option (Nat × String)
deriving DecidableEq, Repr

/-- Process edit events in arrival order against the debounce timer:
a pending timer whose fire time has passed fires first (the rendered
content is recorded), then the edit clears any pending timer and
schedules a new one 300 milliseconds out, exactly as
updatePreviewDebounced clears and restarts its timeout. -/
def runEdits : DebounceState → List (Nat × String) → List String × DebounceState
| st, [] => ([], st)
| st, (t, text) :: rest =>
  let fired := match st.pending with
    | some (ft, c) => if ft ≤ t then [c] else []
    | none => []
  let r := runEdits ⟨some (t + 300, text)⟩ rest
  (fired ++ r.1, r.2)

/-- Run a whole edit sequence from an idle panel and let the final
pending timer fire: the returned list is every content string that
reached updatePreview, in order. -/
def debounceRun (events : List (Nat × String)) : List String :=
let r := runEdits ⟨none⟩ events
r.1 ++ (match r.2.pending with
  | some (_, c) => [c]
  | none => [])

/-- Nondecreasing event times with every consecutive gap under 300
milliseconds, starting from the time of a previous event. -/
def closeFromB : Nat → List (Nat × String) → Bool
| _, [] => true
| t0, (t, _) :: rest => (t0 ≤ t && t < t0 + 300) && closeFromB t rest

/-- The last event of a nonempty sequence, with a default head. -/
def lastEventD (d : Nat × String) : List (Nat × String) → Nat × String
| [] => d
| e :: rest => lastEventD e rest

/-! ### Panel-initiated export (WirePreviewPanel.exportAs) -/

/-- The arguments exportAs hands to ExportManager.showExportDialog. -/
structure ExportDialogArgs where
fileName : String
ir : IR
layout : Layout
theme : Theme
deriving DecidableEq, Repr

/-- Split a character list on path separators (forward or back slash),
as the split with the separator character class does. -/
def splitSepsAux : List Char → List Char → List String
| acc, [] => [⟨acc.reverse⟩]
| acc, c :: rest =>
  if c = '/' ∨ c = '\\' then (⟨acc.reverse⟩ : String) :: splitSepsAux [] rest
  else splitSepsAux (c :: acc) rest

/-- The default export file name computation of exportAs: the last
path-separator-delimited component of the current file path, with the
literal fallback for an empty result. -/
def exportFileName (currentFilePath : String) : String :=
if currentFilePath = "" then "export.wire"
else
  let last := (splitSepsAux [] currentFilePath.toList).getLastD ""
  if last = "" then "export.wire" else last

/-- WirePreviewPanel.exportAs: fail without cached IR and layout, find
the selected screen in the cached IR, fail when absent, otherwise pass
a filtered IR holding exactly that screen to the export dialog. -/
def exportAs (sess : Session) : Except String ExportDialogArgs :=
match sess.lastIR, sess.lastLayout with
| some ir, some layout =>
  match ir.project.screens.find? (fun s => s.name = sess.selectedScreen) with
  | none => .error "Selected screen not found"
  | some screenToExport =>
    .ok ⟨exportFileName sess.currentFilePath, ⟨⟨[screenToExport]⟩⟩, layout, sess.currentTheme⟩
| _, _ => .error "No preview content available to export"

/-! ### Concrete fixtures for witnesses and counterexamples -/

/-- A two-screen document: the Login and Dashboard screens of the
specification scenarios. -/
def demoScreens : List Screen :=
[⟨"Login", some ⟨200, 100⟩⟩, ⟨"Dashboard", some ⟨300, 150⟩⟩]

/-- The IR of the two-screen demo document. -/
def demoIR : IR := ⟨⟨demoScreens⟩⟩

/-- A one-screen document. -/
def oneScreenIR : IR := ⟨⟨[⟨"Login", some ⟨200, 100⟩⟩]⟩⟩

/-- A document with no screens. -/
def emptyIR : IR := ⟨⟨[]⟩⟩

/-- An IR cached from an earlier pass, distinct from demoIR. -/
def oldIR : IR := ⟨⟨[⟨"Old", some ⟨10, 10⟩⟩]⟩⟩

/-- A layout cached from an earlier pass. -/
def oldLayout : Layout := ⟨7⟩

/-- An engine whose whole pipeline succeeds and yields demoIR. -/
def demoEngine : Engine where
parseWireDSL := fun s => .ok ⟨s.length⟩
generateIR := fun _ => .ok demoIR
calculateLayout := fun _ => .ok ⟨1⟩
renderToSVG := fun _ _ _ => .ok "<svg viewBox=\"0 0 10 10\"></svg>"

/-- An engine that parses and builds the IR but fails at layout. -/
def layoutFailEngine : Engine where
parseWireDSL := fun s => .ok ⟨s.length⟩
generateIR := fun _ => .ok demoIR
calculateLayout := fun _ => .error "layout boom"
renderToSVG := fun _ _ _ => .ok "<svg></svg>"

/-- An engine whose IR renames the screens to SignIn and Dashboard. -/
def renameEngine : Engine where
parseWireDSL := fun s => .ok ⟨s.length⟩
generateIR := fun _ => .ok ⟨⟨[⟨"SignIn", some ⟨200, 100⟩⟩, ⟨"Dashboard", some ⟨300, 150⟩⟩]⟩⟩
calculateLayout := fun _ => .ok ⟨1⟩
renderToSVG := fun _ _ _ => .ok "<svg></svg>"

/-- A session holding a good cache from an earlier successful pass. -/
def sessCached : Session where
lastContent := "old content"
currentTheme := .dark
availableScreens := ["Old"]
selectedScreen := "Old"
lastIR := some oldIR
lastLayout := some oldLayout
currentFilePath := "app.wire"


/-! ### Helper lemmas about the export fan-out -/

theorem exportSVG_single (ir : IR) (layout : Layout) (theme : Theme) (fp : String)
    (s : Screen) (hs : ir.project.screens = [s]) :
    ExportManager.exportSVG ir layout theme fp =
      .ok [.svgFile fp (renderScreen ir layout theme
        (s.viewport.getD (ExportManager.baseViewportOf [s])) s)] := by
  simp [ExportManager.exportSVG, ExportManager.exportSVGBody, hs]

theorem exportSVG_multi (ir : IR) (layout : Layout) (theme : Theme) (fp : String)
    (s1 s2 : Screen) (rest : List Screen) (hs : ir.project.screens = s1 :: s2 :: rest) :
    ExportManager.exportSVG ir layout theme fp =
      .ok ((s1 :: s2 :: rest).map (fun screen =>
        .svgFile (joinPath (dirname fp)
            (basenameExt fp ".svg" ++ "-" ++ sanitizeScreenName screen.name ++ ".svg"))
          (renderScreen ir layout theme
            (screen.viewport.getD (ExportManager.baseViewportOf (s1 :: s2 :: rest))) screen))) := by
  simp [ExportManager.exportSVG, ExportManager.exportSVGBody, hs]

theorem exportPNG_single (ir : IR) (layout : Layout) (theme : Theme) (fp : String)
    (s : Screen) (hs : ir.project.screens = [s]) :
    ExportManager.exportPNG ir layout theme fp =
      .ok [.pngFile fp (renderScreen ir layout theme
          (s.viewport.getD (ExportManager.baseViewportOf [s])) s)
        (s.viewport.getD (ExportManager.baseViewportOf [s])).width
        (s.viewport.getD (ExportManager.baseViewportOf [s])).height] := by
  simp [ExportManager.exportPNG, ExportManager.exportPNGBody, hs]

theorem exportPNG_multi (ir : IR) (layout : Layout) (theme : Theme) (fp : String)
    (s1 s2 : Screen) (rest : List Screen) (hs : ir.project.screens = s1 :: s2 :: rest) :
    ExportManager.exportPNG ir layout theme fp =
      .ok ((s1 :: s2 :: rest).map (fun screen =>
        .pngFile (joinPath (dirname fp)
            (basenameExt fp ".png" ++ "-" ++ sanitizeScreenName screen.name ++ ".png"))
          (renderScreen ir layout theme
            (screen.viewport.getD (ExportManager.baseViewportOf (s1 :: s2 :: rest))) screen)
          (screen.viewport.getD (ExportManager.baseViewportOf (s1 :: s2 :: rest))).width
          (screen.viewport.getD (ExportManager.baseViewportOf (s1 :: s2 :: rest))).height)) := by
  simp [ExportManager.exportPNG, ExportManager.exportPNGBody, hs]

theorem exportPDF_eq (ir : IR) (layout : Layout) (theme : Theme) (fp : String)
    (hne : ir.project.screens ≠ []) :
    ExportManager.exportPDF ir layout theme fp =
      .ok [.pdfFile fp (ir.project.screens.map (fun screen =>
        PDFPage.mk (renderScreen ir layout theme
            (screen.viewport.getD (ExportManager.baseViewportOf ir.project.screens)) screen)
          (screen.viewport.getD (ExportManager.baseViewportOf ir.project.screens)).width
          (screen.viewport.getD (ExportManager.baseViewportOf ir.project.screens)).height
          screen.name))] := by
  simp [ExportManager.exportPDF, ExportManager.exportPDFBody, hne]

theorem forall2_map_self {α β : Type} {P : α → β → Prop} (f : α → β) (l : List α)
    (h : ∀ a ∈ l, P a (f a)) : List.Forall₂ P l (l.map f) := by
  induction l with
  | nil => simp
  | cons a rest ih =>
    simp only [List.map_cons, List.forall₂_cons]
    exact ⟨h a (List.mem_cons_self a rest), ih (fun b hb => h b (List.mem_cons_of_mem a hb))⟩

/-! ### Claim theorems -/

/-- C1: for a document with N screens, raster (PNG) and vector (SVG)
export produce exactly N written artifacts when N is above one, and
exactly one artifact written exactly to the destination path when N
is one. -/
theorem c1_raster_vector_fanout (ir : IR) (layout : Layout) (theme : Theme) (fp : String)
    (n : Nat) (hn : ir.project.screens.length = n) (h1 : 1 ≤ n) :
    (∃ arts, ExportManager.exportSVG ir layout theme fp = .ok arts ∧ arts.length = n ∧
      (n = 1 → ∃ r, arts = [WriteOp.svgFile fp r])) ∧
    (∃ arts, ExportManager.exportPNG ir layout theme fp = .ok arts ∧ arts.length = n ∧
      (n = 1 → ∃ r w h, arts = [WriteOp.pngFile fp r w h])) := by
  match hs : ir.project.screens with
  | [] => rw [hs] at hn; simp at hn; omega
  | [s] =>
    rw [hs] at hn
    simp only [List.length_singleton] at hn
    subst hn
    exact ⟨⟨_, exportSVG_single ir layout theme fp s hs, rfl, fun _ => ⟨_, rfl⟩⟩,
           ⟨_, exportPNG_single ir layout theme fp s hs, rfl, fun _ => ⟨_, _, _, rfl⟩⟩⟩
  | s1 :: s2 :: rest =>
    rw [hs] at hn
    have hlen : rest.length + 2 = n := by simpa using hn
    refine ⟨⟨_, exportSVG_multi ir layout theme fp s1 s2 rest hs, by simp [← hlen],
              fun hone => (by omega : False).elim⟩,
            ⟨_, exportPNG_multi ir layout theme fp s1 s2 rest hs, by simp [← hlen],
              fun hone => (by omega : False).elim⟩⟩

/-- C1 witness: the one-screen and two-screen demo documents. -/
theorem c1_raster_vector_fanout_witness :
    ((∃ arts, ExportManager.exportSVG oneScreenIR oldLayout .dark "out.svg" = .ok arts ∧
        arts.length = 1 ∧ (1 = 1 → ∃ r, arts = [WriteOp.svgFile "out.svg" r])) ∧
     (∃ arts, ExportManager.exportPNG oneScreenIR oldLayout .dark "out.svg" = .ok arts ∧
        arts.length = 1 ∧ (1 = 1 → ∃ r w h, arts = [WriteOp.pngFile "out.svg" r w h]))) ∧
    ((∃ arts, ExportManager.exportSVG demoIR oldLayout .dark "out.svg" = .ok arts ∧
        arts.length = 2 ∧ (2 = 1 → ∃ r, arts = [WriteOp.svgFile "out.svg" r])) ∧
     (∃ arts, ExportManager.exportPNG demoIR oldLayout .dark "out.svg" = .ok arts ∧
        arts.length = 2 ∧ (2 = 1 → ∃ r w h, arts = [WriteOp.pngFile "out.svg" r w h]))) :=
  ⟨c1_raster_vector_fanout oneScreenIR oldLayout .dark "out.svg" 1 (by decide) (by decide),
   c1_raster_vector_fanout demoIR oldLayout .dark "out.svg" 2 (by decide) (by decide)⟩

/-- C3: paginated-document export writes exactly one artifact at the
destination path, with one page per screen in declaration order, each
page carrying the intrinsic width and height of its screen whenever
the screen declares one. -/
theorem c3_pdf_single_artifact (ir : IR) (layout : Layout) (theme : Theme) (fp : String)
    (h1 : 1 ≤ ir.project.screens.length) :
    ∃ pages, ExportManager.exportPDF ir layout theme fp = .ok [WriteOp.pdfFile fp pages] ∧
      pages.length = ir.project.screens.length ∧
      List.Forall₂ (fun (s : Screen) (p : PDFPage) => p.name = s.name ∧
          ∀ vp, s.viewport = some vp → p.width = vp.width ∧ p.height = vp.height)
        ir.project.screens pages := by
  have hne : ir.project.screens ≠ [] := by
    intro h
    rw [h] at h1
    simp at h1
  refine ⟨_, exportPDF_eq ir layout theme fp hne, by simp, ?_⟩
  refine forall2_map_self _ _ (fun s hsmem => ⟨rfl, fun vp hvp => ?_⟩)
  simp [hvp]

/-- C3 witness: the Login and Dashboard document exported to out.pdf. -/
theorem c3_pdf_single_artifact_witness :
    ∃ pages, ExportManager.exportPDF demoIR oldLayout .dark "out.pdf" =
        .ok [WriteOp.pdfFile "out.pdf" pages] ∧
      pages.length = demoIR.project.screens.length ∧
      List.Forall₂ (fun (s : Screen) (p : PDFPage) => p.name = s.name ∧
          ∀ vp, s.viewport = some vp → p.width = vp.width ∧ p.height = vp.height)
        demoIR.project.screens pages :=
  c3_pdf_single_artifact demoIR oldLayout .dark "out.pdf" (by decide)

/-- C4: in a multi-screen raster or vector export every artifact path
is the destination directory joined with the destination base name, a
hyphen, the sanitized screen name and the extension; on the Login and
Dashboard screens with destination out.png this yields out-login.png
and out-dashboard.png. -/
theorem c4_sanitized_suffix_names :
    (∀ (ir : IR) (layout : Layout) (theme : Theme) (fp : String),
      2 ≤ ir.project.screens.length →
      (∃ arts, ExportManager.exportPNG ir layout theme fp = .ok arts ∧
        arts.map WriteOp.path = ir.project.screens.map (fun s =>
          joinPath (dirname fp)
            (basenameExt fp ".png" ++ "-" ++ sanitizeScreenName s.name ++ ".png"))) ∧
      (∃ arts, ExportManager.exportSVG ir layout theme fp = .ok arts ∧
        arts.map WriteOp.path = ir.project.screens.map (fun s =>
          joinPath (dirname fp)
            (basenameExt fp ".svg" ++ "-" ++ sanitizeScreenName s.name ++ ".svg")))) ∧
    (ExportManager.exportPNG demoIR oldLayout .dark "out.png").map (List.map WriteOp.path) =
      .ok ["out-login.png", "out-dashboard.png"] := by
  constructor
  · intro ir layout theme fp h2
    match hs : ir.project.screens with
    | [] => rw [hs] at h2; simp at h2
    | [s] => rw [hs] at h2; simp at h2
    | s1 :: s2 :: rest =>
      refine ⟨⟨_, exportPNG_multi ir layout theme fp s1 s2 rest hs, ?_⟩,
              ⟨_, exportSVG_multi ir layout theme fp s1 s2 rest hs, ?_⟩⟩
      all_goals simp [WriteOp.path]
  · rfl

/-- C4 witness: the general part applied to the demo document. -/
theorem c4_sanitized_suffix_names_witness :
    ∃ arts, ExportManager.exportPNG demoIR oldLayout .dark "out.png" = .ok arts ∧
      arts.map WriteOp.path = demoIR.project.screens.map (fun s =>
        joinPath (dirname "out.png")
          (basenameExt "out.png" ".png" ++ "-" ++ sanitizeScreenName s.name ++ ".png")) :=
  (c4_sanitized_suffix_names.1 demoIR oldLayout .dark "out.png" (by decide)).1

/-- C8: with zero screens every export format fails with the no-views
error and writes nothing; a successful export implies at least one
screen was present. -/
theorem c8_no_views_error (ir : IR) (layout : Layout) (theme : Theme) (fp : String) :
    (ir.project.screens = [] →
      ExportManager.exportSVG ir layout theme fp =
          .error "SVG export failed: No screens found in project" ∧
      ExportManager.exportPDF ir layout theme fp =
          .error "PDF export failed: No screens found in project" ∧
      ExportManager.exportPNG ir layout theme fp =
          .error "PNG export failed: No screens found in project") ∧
    (∀ arts, ExportManager.exportSVG ir layout theme fp = .ok arts →
      ir.project.screens ≠ []) ∧
    (∀ arts, ExportManager.exportPDF ir layout theme fp = .ok arts →
      ir.project.screens ≠ []) ∧
    (∀ arts, ExportManager.exportPNG ir layout theme fp = .ok arts →
      ir.project.screens ≠ []) := by
  refine ⟨fun hs => ?_, fun arts hok hs => ?_, fun arts hok hs => ?_, fun arts hok hs => ?_⟩
  · simp [ExportManager.exportSVG, ExportManager.exportSVGBody,
      ExportManager.exportPDF, ExportManager.exportPDFBody,
      ExportManager.exportPNG, ExportManager.exportPNGBody, hs]
  · rw [ExportManager.exportSVG, ExportManager.exportSVGBody] at hok
    simp [hs] at hok
  · rw [ExportManager.exportPDF, ExportManager.exportPDFBody] at hok
    simp [hs] at hok
  · rw [ExportManager.exportPNG, ExportManager.exportPNGBody] at hok
    simp [hs] at hok

/-- C8 witness: the empty document fails in all three formats. -/
theorem c8_no_views_error_witness :
    ExportManager.exportSVG emptyIR oldLayout .dark "out.svg" =
        .error "SVG export failed: No screens found in project" ∧
    ExportManager.exportPDF emptyIR oldLayout .dark "out.svg" =
        .error "PDF export failed: No screens found in project" ∧
    ExportManager.exportPNG emptyIR oldLayout .dark "out.svg" =
        .error "PNG export failed: No screens found in project" :=
  (c8_no_views_error emptyIR oldLayout .dark "out.svg").1 rfl

/-- C10: an export initiated from the preview panel with a cached IR
passes the dialog an IR whose screen list is exactly the selected
screen, so every format writes exactly one artifact; when the selected
screen is absent from the cached IR, exportAs fails with the
selected-screen-not-found error and exports nothing. -/
theorem c10_panel_export_single_screen (sess : Session) (ir : IR) (layout : Layout)
    (hIR : sess.lastIR = some ir) (hL : sess.lastLayout = some layout) :
    (∀ s, ir.project.screens.find? (fun t => t.name = sess.selectedScreen) = some s →
      ∃ args, exportAs sess = .ok args ∧
        args.ir.project.screens = [s] ∧ args.layout = layout ∧ args.theme = sess.currentTheme ∧
        (∀ (fp : String) (th : Theme) (l2 : Layout),
          (∃ r, ExportManager.exportSVG args.ir l2 th fp = .ok [WriteOp.svgFile fp r]) ∧
          (∃ r w h, ExportManager.exportPNG args.ir l2 th fp = .ok [WriteOp.pngFile fp r w h]) ∧
          (∃ pgs, ExportManager.exportPDF args.ir l2 th fp = .ok [WriteOp.pdfFile fp pgs]))) ∧
    (ir.project.screens.find? (fun t => t.name = sess.selectedScreen) = none →
      exportAs sess = .error "Selected screen not found") := by
  constructor
  · intro s hfind
    have heq : exportAs sess =
        .ok ⟨exportFileName sess.currentFilePath, ⟨⟨[s]⟩⟩, layout, sess.currentTheme⟩ := by
      simp only [exportAs, hIR, hL, hfind]
    refine ⟨_, heq, rfl, rfl, rfl, ?_⟩
    intro fp th l2
    exact ⟨⟨_, exportSVG_single _ l2 th fp s rfl⟩,
           ⟨_, _, _, exportPNG_single _ l2 th fp s rfl⟩,
           ⟨_, exportPDF_eq _ l2 th fp (by simp)⟩⟩
  · intro hfind
    simp only [exportAs, hIR, hL, hfind]

/-- C10 witness: the cached session whose selected screen exists, and
a variant whose selected screen is missing. -/
theorem c10_panel_export_single_screen_witness :
    (∃ args, exportAs sessCached = .ok args ∧
      args.ir.project.screens = [⟨"Old", some ⟨10, 10⟩⟩] ∧ args.layout = oldLayout ∧
      args.theme = sessCached.currentTheme ∧
      (∀ (fp : String) (th : Theme) (l2 : Layout),
        (∃ r, ExportManager.exportSVG args.ir l2 th fp = .ok [WriteOp.svgFile fp r]) ∧
        (∃ r w h, ExportManager.exportPNG args.ir l2 th fp = .ok [WriteOp.pngFile fp r w h]) ∧
        (∃ pgs, ExportManager.exportPDF args.ir l2 th fp = .ok [WriteOp.pdfFile fp pgs]))) ∧
    exportAs { sessCached with selectedScreen := "Missing" } =
      .error "Selected screen not found" :=
  ⟨(c10_panel_export_single_screen sessCached oldIR oldLayout rfl rfl).1
      ⟨"Old", some ⟨10, 10⟩⟩ rfl,
   (c10_panel_export_single_screen { sessCached with selectedScreen := "Missing" }
      oldIR oldLayout rfl rfl).2 rfl⟩

/-! ### Helper lemmas about updatePreview -/

/-- Branch equations for updatePreview, one per pipeline outcome. -/
theorem updatePreview_parse_error (eng : Engine) (af : Option String) (sess : Session)
    (content : String) (e : String) (hp : eng.parseWireDSL content = .error e) :
    updatePreview eng af sess content =
      (sessAfterStore af sess content, .error e, ⟨1, 0, 0, 0⟩) := by
  simp only [updatePreview, hp]

theorem updatePreview_ir_error (eng : Engine) (af : Option String) (sess : Session)
    (content : String) (ast : AST) (e : String)
    (hp : eng.parseWireDSL content = .ok ast) (hi : eng.generateIR ast = .error e) :
    updatePreview eng af sess content =
      (sessAfterStore af sess content, .error e, ⟨1, 1, 0, 0⟩) := by
  simp only [updatePreview, hp, hi]

theorem updatePreview_layout_error (eng : Engine) (af : Option String) (sess : Session)
    (content : String) (ast : AST) (ir : IR) (e : String)
    (hp : eng.parseWireDSL content = .ok ast) (hi : eng.generateIR ast = .ok ir)
    (hl : eng.calculateLayout ir = .error e) :
    updatePreview eng af sess content =
      (sessAfterIR af sess content ir, .error e, ⟨1, 1, 1, 0⟩) := by
  simp only [updatePreview, hp, hi, hl]

theorem updatePreview_render_error (eng : Engine) (af : Option String) (sess : Session)
    (content : String) (ast : AST) (ir : IR) (layout : Layout) (e : String)
    (hp : eng.parseWireDSL content = .ok ast) (hi : eng.generateIR ast = .ok ir)
    (hl : eng.calculateLayout ir = .ok layout)
    (hr : eng.renderToSVG ir layout
      ⟨1300, 700, (sessAfterIR af sess content ir).currentTheme, true,
        (sessAfterIR af sess content ir).selectedScreen⟩ = .error e) :
    updatePreview eng af sess content =
      ({ sessAfterIR af sess content ir with lastLayout := some layout },
        .error e, ⟨1, 1, 1, 1⟩) := by
  simp only [updatePreview, hp, hi, hl, hr]

theorem updatePreview_render_ok (eng : Engine) (af : Option String) (sess : Session)
    (content : String) (ast : AST) (ir : IR) (layout : Layout) (svg : String)
    (hp : eng.parseWireDSL content = .ok ast) (hi : eng.generateIR ast = .ok ir)
    (hl : eng.calculateLayout ir = .ok layout)
    (hr : eng.renderToSVG ir layout
      ⟨1300, 700, (sessAfterIR af sess content ir).currentTheme, true,
        (sessAfterIR af sess content ir).selectedScreen⟩ = .ok svg) :
    updatePreview eng af sess content =
      ({ sessAfterIR af sess content ir with lastLayout := some layout },
        .html (ensureDims svg) (screenNamesOf ir)
          (sessAfterIR af sess content ir).selectedScreen, ⟨1, 1, 1, 1⟩) := by
  simp only [updatePreview, hp, hi, hl, hr]

theorem sessAfterStore_currentTheme (af : Option String) (sess : Session) (content : String) :
    (sessAfterStore af sess content).currentTheme = sess.currentTheme := by
  unfold sessAfterStore
  cases af <;> rfl

theorem sessAfterStore_selectedScreen (af : Option String) (sess : Session) (content : String) :
    (sessAfterStore af sess content).selectedScreen = sess.selectedScreen := by
  unfold sessAfterStore
  cases af <;> rfl

theorem sessAfterStore_lastIR (af : Option String) (sess : Session) (content : String) :
    (sessAfterStore af sess content).lastIR = sess.lastIR := by
  unfold sessAfterStore
  cases af <;> rfl

theorem sessAfterStore_lastLayout (af : Option String) (sess : Session) (content : String) :
    (sessAfterStore af sess content).lastLayout = sess.lastLayout := by
  unfold sessAfterStore
  cases af <;> rfl

theorem sessAfterIR_currentTheme (af : Option String) (sess : Session) (content : String)
    (ir : IR) : (sessAfterIR af sess content ir).currentTheme = sess.currentTheme := by
  unfold sessAfterIR
  dsimp only
  split <;> simp [sessAfterStore_currentTheme]

theorem sessAfterIR_lastIR (af : Option String) (sess : Session) (content : String)
    (ir : IR) : (sessAfterIR af sess content ir).lastIR = some ir := by
  unfold sessAfterIR
  dsimp only
  split <;> rfl

theorem sessAfterIR_lastLayout (af : Option String) (sess : Session) (content : String)
    (ir : IR) : (sessAfterIR af sess content ir).lastLayout = sess.lastLayout := by
  unfold sessAfterIR
  dsimp only
  split <;> simp [sessAfterStore_lastLayout]

theorem sessAfterIR_selectedScreen (af : Option String) (sess : Session) (content : String)
    (ir : IR) : (sessAfterIR af sess content ir).selectedScreen =
      (if sess.selectedScreen = "" ∧ ¬ (screenNamesOf ir).isEmpty
       then (screenNamesOf ir).headD "" else sess.selectedScreen) := by
  unfold sessAfterIR
  simp only [sessAfterStore_selectedScreen]
  split <;> rfl

/-- Instrumentation lemma: every updatePreview pass invokes the parse
operation exactly once, whatever the engine outcomes. -/
theorem updatePreview_parseCalls (eng : Engine) (af : Option String) (sess : Session)
    (content : String) : (updatePreview eng af sess content).2.2.parseCalls = 1 := by
  rcases hp : eng.parseWireDSL content with e | ast
  · rw [updatePreview_parse_error eng af sess content e hp]
  · rcases hi : eng.generateIR ast with e | ir
    · rw [updatePreview_ir_error eng af sess content ast e hp hi]
    · rcases hl : eng.calculateLayout ir with e | layout
      · rw [updatePreview_layout_error eng af sess content ast ir e hp hi hl]
      · rcases hr : eng.renderToSVG ir layout
            ⟨1300, 700, (sessAfterIR af sess content ir).currentTheme, true,
              (sessAfterIR af sess content ir).selectedScreen⟩ with e | svg
        · rw [updatePreview_render_error eng af sess content ast ir layout e hp hi hl hr]
        · rw [updatePreview_render_ok eng af sess content ast ir layout svg hp hi hl hr]

/-- C5 counterexample: a theme-toggle message on a session holding a
cached IR and Layout runs the parse operation once (the claim demands
zero parse calls), and replaces the cached IR with the fresh one. -/
theorem c5_counterexample :
    (handleSetTheme demoEngine none sessCached .light).2.map
        (fun r => (r.2.parseCalls, r.2.layoutCalls)) = some (1, 1) ∧
    (handleSetTheme demoEngine none sessCached .light).1.lastIR = some demoIR ∧
    sessCached.lastIR = some oldIR ∧ demoIR ≠ oldIR := by
  refine ⟨rfl, rfl, rfl, ?_⟩
  decide

/-- C5 amended: a theme-toggle or screen-selection message with stored
content runs a full immediate updatePreview pass on the stored text
(bypassing the debounce) with the new theme or selection in place;
the pass re-invokes parse exactly once instead of reusing the caches. -/
theorem c5_theme_view_reparse (eng : Engine) (af : Option String) (sess : Session)
    (th : Theme) (scr : String) (h : sess.lastContent ≠ "") :
    (handleSetTheme eng af sess th =
      ((updatePreview eng af { sess with currentTheme := th } sess.lastContent).1,
        some (updatePreview eng af { sess with currentTheme := th } sess.lastContent).2) ∧
      (updatePreview eng af { sess with currentTheme := th } sess.lastContent).2.2.parseCalls
        = 1) ∧
    (handleSelectScreen eng af sess scr =
      ((updatePreview eng af { sess with selectedScreen := scr } sess.lastContent).1,
        some (updatePreview eng af { sess with selectedScreen := scr } sess.lastContent).2) ∧
      (updatePreview eng af { sess with selectedScreen := scr } sess.lastContent).2.2.parseCalls
        = 1) := by
  refine ⟨⟨?_, updatePreview_parseCalls _ _ _ _⟩, ⟨?_, updatePreview_parseCalls _ _ _ _⟩⟩
  · rw [handleSetTheme]
    simp [h]
  · rw [handleSelectScreen]
    simp [h]

/-- C5 amended witness: the cached demo session under a theme toggle. -/
theorem c5_theme_view_reparse_witness :
    handleSetTheme demoEngine none sessCached .light =
      ((updatePreview demoEngine none { sessCached with currentTheme := .light }
          sessCached.lastContent).1,
        some (updatePreview demoEngine none { sessCached with currentTheme := .light }
          sessCached.lastContent).2) ∧
    (updatePreview demoEngine none { sessCached with currentTheme := .light }
      sessCached.lastContent).2.2.parseCalls = 1 :=
  (c5_theme_view_reparse demoEngine none sessCached .light "x" (by decide)).1

/-- C6 counterexample: when the layout stage fails, the pass has
already replaced the cached IR while the cached Layout keeps its old
value, so the two caches are not left as they were and not replaced
together; the error message is still surfaced. -/
theorem c6_counterexample :
    (updatePreview layoutFailEngine none sessCached "new").1.lastIR = some demoIR ∧
    sessCached.lastIR = some oldIR ∧ demoIR ≠ oldIR ∧
    (updatePreview layoutFailEngine none sessCached "new").1.lastLayout =
      sessCached.lastLayout ∧
    (updatePreview layoutFailEngine none sessCached "new").2.1 = .error "layout boom" := by
  refine ⟨rfl, rfl, ?_, rfl, rfl⟩
  decide

/-- C6 amended: on a parse or IR failure both caches are unchanged; on
a layout failure the cached IR has already been replaced while the
cached Layout keeps its previous value; on a render failure both
caches have already been replaced with the new consistent pair; in
every failing pass the surface shows the failure message. -/
theorem c6_cache_stage_updates (eng : Engine) (af : Option String) (sess : Session)
    (content : String) :
    (∀ e, eng.parseWireDSL content = .error e →
      (updatePreview eng af sess content).1.lastIR = sess.lastIR ∧
      (updatePreview eng af sess content).1.lastLayout = sess.lastLayout ∧
      (updatePreview eng af sess content).2.1 = .error e) ∧
    (∀ ast e, eng.parseWireDSL content = .ok ast → eng.generateIR ast = .error e →
      (updatePreview eng af sess content).1.lastIR = sess.lastIR ∧
      (updatePreview eng af sess content).1.lastLayout = sess.lastLayout ∧
      (updatePreview eng af sess content).2.1 = .error e) ∧
    (∀ ast ir e, eng.parseWireDSL content = .ok ast → eng.generateIR ast = .ok ir →
      eng.calculateLayout ir = .error e →
      (updatePreview eng af sess content).1.lastIR = some ir ∧
      (updatePreview eng af sess content).1.lastLayout = sess.lastLayout ∧
      (updatePreview eng af sess content).2.1 = .error e) ∧
    (∀ ast ir layout e, eng.parseWireDSL content = .ok ast → eng.generateIR ast = .ok ir →
      eng.calculateLayout ir = .ok layout →
      eng.renderToSVG ir layout
        ⟨1300, 700, (sessAfterIR af sess content ir).currentTheme, true,
          (sessAfterIR af sess content ir).selectedScreen⟩ = .error e →
      (updatePreview eng af sess content).1.lastIR = some ir ∧
      (updatePreview eng af sess content).1.lastLayout = some layout ∧
      (updatePreview eng af sess content).2.1 = .error e) := by
  refine ⟨fun e hp => ?_, fun ast e hp hi => ?_, fun ast ir e hp hi hl => ?_,
          fun ast ir layout e hp hi hl hr => ?_⟩
  · rw [updatePreview_parse_error eng af sess content e hp]
    exact ⟨sessAfterStore_lastIR af sess content, sessAfterStore_lastLayout af sess content, rfl⟩
  · rw [updatePreview_ir_error eng af sess content ast e hp hi]
    exact ⟨sessAfterStore_lastIR af sess content, sessAfterStore_lastLayout af sess content, rfl⟩
  · rw [updatePreview_layout_error eng af sess content ast ir e hp hi hl]
    exact ⟨sessAfterIR_lastIR af sess content ir, sessAfterIR_lastLayout af sess content ir, rfl⟩
  · rw [updatePreview_render_error eng af sess content ast ir layout e hp hi hl hr]
    refine ⟨?_, rfl, rfl⟩
    simp [sessAfterIR_lastIR af sess content ir]

/-- C6 amended witness: the layout-failure engine on the cached demo
session, instantiating the layout-failure clause. -/
theorem c6_cache_stage_updates_witness :
    (updatePreview layoutFailEngine none sessCached "new").1.lastIR = some demoIR ∧
    (updatePreview layoutFailEngine none sessCached "new").1.lastLayout =
      sessCached.lastLayout ∧
    (updatePreview layoutFailEngine none sessCached "new").2.1 = .error "layout boom" :=
  (c6_cache_stage_updates layoutFailEngine none sessCached "new").2.2.1
    ⟨3⟩ demoIR "layout boom" rfl rfl rfl

/-- C7 counterexample: after a re-parse that renames the screens, a
stale non-empty selected screen is kept even though it is absent from
the new screen list, and a subsequent panel export fails with the
selected-screen-not-found error instead of falling back to the first
screen. -/
theorem c7_counterexample :
    (updatePreview renameEngine none sessCached "renamed").1.selectedScreen = "Old" ∧
    (updatePreview renameEngine none sessCached "renamed").1.availableScreens =
      ["SignIn", "Dashboard"] ∧
    "Old" ∉ ["SignIn", "Dashboard"] ∧
    exportAs (updatePreview renameEngine none sessCached "renamed").1 =
      .error "Selected screen not found" := by
  refine ⟨rfl, rfl, by decide, rfl⟩

/-- C7 amended: a successful re-parse initializes the selected screen
to the first available screen only when the selection is empty; a
non-empty selection is kept unchanged even when the new screen list
does not contain it. -/
theorem c7_selected_screen_policy (eng : Engine) (af : Option String) (sess : Session)
    (content : String) (ast : AST) (ir : IR)
    (hp : eng.parseWireDSL content = .ok ast) (hi : eng.generateIR ast = .ok ir) :
    (updatePreview eng af sess content).1.selectedScreen =
      (if sess.selectedScreen = "" ∧ ¬ (screenNamesOf ir).isEmpty
       then (screenNamesOf ir).headD "" else sess.selectedScreen) := by
  rcases hl : eng.calculateLayout ir with e | layout
  · rw [updatePreview_layout_error eng af sess content ast ir e hp hi hl]
    exact sessAfterIR_selectedScreen af sess content ir
  · rcases hr : eng.renderToSVG ir layout
        ⟨1300, 700, (sessAfterIR af sess content ir).currentTheme, true,
          (sessAfterIR af sess content ir).selectedScreen⟩ with e | svg
    · rw [updatePreview_render_error eng af sess content ast ir layout e hp hi hl hr]
      rw [← sessAfterIR_selectedScreen af sess content ir]
    · rw [updatePreview_render_ok eng af sess content ast ir layout svg hp hi hl hr]
      rw [← sessAfterIR_selectedScreen af sess content ir]

/-- C7 amended witness: the renaming engine keeps the stale selection. -/
theorem c7_selected_screen_policy_witness :
    (updatePreview renameEngine none sessCached "renamed").1.selectedScreen =
      (if sessCached.selectedScreen = "" ∧
          ¬ (screenNamesOf ⟨⟨[⟨"SignIn", some ⟨200, 100⟩⟩, ⟨"Dashboard", some ⟨300, 150⟩⟩]⟩⟩).isEmpty
       then (screenNamesOf ⟨⟨[⟨"SignIn", some ⟨200, 100⟩⟩, ⟨"Dashboard", some ⟨300, 150⟩⟩]⟩⟩).headD ""
       else sessCached.selectedScreen) :=
  c7_selected_screen_policy renameEngine none sessCached "renamed" ⟨7⟩ _ rfl rfl

/-- Helper for C2: while every next edit arrives before the pending
timer fires, no render fires during processing and the final pending
timer carries the last edit. -/
theorem runEdits_no_fire (events : List (Nat × String)) :
    ∀ (t0 : Nat) (c0 : String), closeFromB t0 events = true →
      runEdits ⟨some (t0 + 300, c0)⟩ events =
        ([], ⟨some ((lastEventD (t0, c0) events).1 + 300, (lastEventD (t0, c0) events).2)⟩) := by
  induction events with
  | nil =>
    intro t0 c0 _
    rfl
  | cons e rest ih =>
    intro t0 c0 h
    obtain ⟨t, s⟩ := e
    rw [closeFromB] at h
    simp only [Bool.and_eq_true, decide_eq_true_eq] at h
    obtain ⟨⟨hle, hlt⟩, hrest⟩ := h
    rw [runEdits]
    simp only [lastEventD]
    rw [if_neg (by omega)]
    rw [ih t s hrest]
    rfl

/-- C2: for a nonempty edit sequence whose consecutive arrivals are
each under 300 milliseconds apart, exactly one render runs, after the
last event, and it renders the text of the last event; no earlier
event text ever reaches a render. -/
theorem c2_debounce_last_wins (e : Nat × String) (events : List (Nat × String))
    (h : closeFromB e.1 events = true) :
    debounceRun (e :: events) = [(lastEventD e events).2] := by
  obtain ⟨t, s⟩ := e
  rw [debounceRun, runEdits]
  simp only []
  rw [runEdits_no_fire events t s h]
  rfl

/-- C2 witness: two edits 100 milliseconds apart produce exactly one
render carrying the second text. -/
theorem c2_debounce_last_wins_witness :
    closeFromB 0 [(100, "b")] = true ∧ debounceRun [(0, "a"), (100, "b")] = ["b"] :=
  ⟨by decide, c2_debounce_last_wins (0, "a") [(100, "b")] (by decide)⟩

/-- Helper for C9: whenever the svg-tag pattern matches somewhere in
the list, any substring of the injected text is a substring of the
replacement result. -/
theorem replaceSvgTag_contains (inj needle : List Char) :
    ∀ l : List Char, hasSvgTag l = true → needle <:+: inj →
      needle <:+: replaceSvgTag inj l := by
  intro l
  induction l with
  | nil =>
    intro h _
    simp [hasSvgTag] at h
  | cons c rest ih =>
    intro h hn
    by_cases h4 : (c :: rest).take 4 = ['<', 's', 'v', 'g']
    · rw [replaceSvgTag, if_pos h4]
      rw [hasSvgTag, if_pos h4] at h
      rcases hsp : splitAtGt ((c :: rest).drop 4) with _ | ⟨attrs, after⟩
      · rw [hsp] at h
        simp at h
      · exact hn.trans ⟨['<', 's', 'v', 'g'] ++ attrs, '>' :: after, by simp⟩
    · rw [replaceSvgTag, if_neg h4]
      rw [hasSvgTag, if_neg h4] at h
      exact List.infix_cons (ih h hn)

/-- C9: when the rendered raw SVG has an opening svg tag, the surfaced
output of ensureDims always carries explicit width and height
attribute text (injected when the raw output lacks either), and the
successful preview pass surfaces exactly that ensureDims output. -/
theorem c9_explicit_dimensions (eng : Engine) (af : Option String) (sess : Session)
    (content : String) (raw : String) (htag : hasSvgTag raw.toList = true) :
    (("width=".toList <:+: (ensureDims raw).toList) ∧
     ("height=".toList <:+: (ensureDims raw).toList)) ∧
    (∀ ast ir layout, eng.parseWireDSL content = .ok ast → eng.generateIR ast = .ok ir →
      eng.calculateLayout ir = .ok layout →
      eng.renderToSVG ir layout
        ⟨1300, 700, (sessAfterIR af sess content ir).currentTheme, true,
          (sessAfterIR af sess content ir).selectedScreen⟩ = .ok raw →
      (updatePreview eng af sess content).2.1 =
        .html (ensureDims raw) (screenNamesOf ir)
          (sessAfterIR af sess content ir).selectedScreen) := by
  constructor
  · rw [ensureDims]
    split
    · rename_i hcond
      exact hcond
    · exact ⟨replaceSvgTag_contains dimInj _ raw.toList htag (by decide),
             replaceSvgTag_contains dimInj _ raw.toList htag (by decide)⟩
  · intro ast ir layout hp hi hl hr
    rw [updatePreview_render_ok eng af sess content ast ir layout raw hp hi hl hr]

/-- C9 witness: a raw SVG with no dimension attributes gets both
injected. -/
theorem c9_explicit_dimensions_witness :
    hasSvgTag ("<svg></svg>").toList = true ∧
    ("width=".toList <:+: (ensureDims "<svg></svg>").toList ∧
     "height=".toList <:+: (ensureDims "<svg></svg>").toList) :=
  ⟨by decide,
   (c9_explicit_dimensions demoEngine none sessCached "c" "<svg></svg>" (by decide)).1⟩
